import Mathlib

/-!
Shallow embedding of the fetch-orchestration core of the ai-scrapper
repository: the page/job data model (src/models/page.py, src/models/job.py),
the durable URL frontier queue and checkpoint serialization layer
(src/storage/checkpoints.py), the adaptive per-domain rate limiter, bot
detector and HTTP fetch stage (src/pipeline/fetcher.py), and the
orchestrator checkpoint/resume logic (src/pipeline/manager.py).

Modelling conventions:
* machine time is a rational number of seconds (the repository's
  `utils.time.get_current_time` clock is threaded through as an explicit
  `now` argument, as in the spec's injected-clock design note);
* Python floats become rationals;
* Python `datetime` values round-trip exactly through `isoformat` /
  `fromisoformat`, modelled by the tagged wrapper `IsoString`;
* Python sets of strings are modelled as lists of strings (writing a set
  as a JSON array and reading it back with `set(...)` is the identity on
  the underlying set, so order is irrelevant to every claim below);
* `Dict[str, Any]` payloads that the core treats as opaque JSON
  (`CrawlJob.config`, `PipelineState.stage_progress`,
  `Page.analysis_results`) are modelled as uninterpreted values.
-/

/-- Substring occurrence over character lists, used to model Python's
`needle in haystack` test on strings. -/
def charsContain (needle : List Char) : List Char → Bool
  | [] => needle.isEmpty
  | c :: t => needle.isPrefixOf (c :: t) || charsContain needle t

/-- Python's `needle in hay` substring test on strings. -/
def strIn (needle hay : String) : Bool := charsContain needle.data hay.data

/-- Python's `str.lower()` (ASCII case folding suffices for the header
names and challenge phrases involved). -/
def strLower (s : String) : String := ⟨s.data.map Char.toLower⟩

/-- Characters following the first `"://"`, if any. -/
def afterScheme : List Char → Option (List Char)
  | [] => none
  | c :: t =>
      if (':' :: '/' :: '/' :: []).isPrefixOf (c :: t) then some (t.drop 2)
      else afterScheme t

/-- Model of `urllib.parse.urlparse(url).netloc`: the part after `://` and
before the next `/` (empty when the URL has no scheme separator). -/
def urlNetloc (url : String) : String :=
  match afterScheme url.data with
  | some rest => ⟨rest.takeWhile (fun c => c ≠ '/')⟩
  | none => ""

/-- Enum `PageStatus` from src/models/page.py. -/
inductive PageStatus
  | discovered
  | fetching
  | fetched
  | extracting
  | extracted
  | analyzing
  | analyzed
  | failed
  deriving DecidableEq

/-- Serialization of a `PageStatus` as its string value (the custom JSON
encoder writes `obj.value` for enums). -/
def PageStatus.value : PageStatus → String
  | .discovered => "discovered"
  | .fetching => "fetching"
  | .fetched => "fetched"
  | .extracting => "extracting"
  | .extracted => "extracted"
  | .analyzing => "analyzing"
  | .analyzed => "analyzed"
  | .failed => "failed"

/-- Python's `PageStatus(s)` enum constructor: succeeds exactly on the
declared values, raises (here: `none`) otherwise. -/
def PageStatus.ofValue (s : String) : Option PageStatus :=
  if s = "discovered" then some .discovered
  else if s = "fetching" then some .fetching
  else if s = "fetched" then some .fetched
  else if s = "extracting" then some .extracting
  else if s = "extracted" then some .extracted
  else if s = "analyzing" then some .analyzing
  else if s = "analyzed" then some .analyzed
  else if s = "failed" then some .failed
  else none

/-- Enum `JobStatus` from src/models/job.py. -/
inductive JobStatus
  | pending
  | running
  | paused
  | completed
  | failed
  deriving DecidableEq

def JobStatus.value : JobStatus → String
  | .pending => "pending"
  | .running => "running"
  | .paused => "paused"
  | .completed => "completed"
  | .failed => "failed"

def JobStatus.ofValue (s : String) : Option JobStatus :=
  if s = "pending" then some .pending
  else if s = "running" then some .running
  else if s = "paused" then some .paused
  else if s = "completed" then some .completed
  else if s = "failed" then some .failed
  else none

/-- Enum `PipelineStage` from src/models/job.py. -/
inductive PipelineStage
  | discovery
  | fetch
  | extract
  | analyze
  | store
  | export
  deriving DecidableEq

def PipelineStage.value : PipelineStage → String
  | .discovery => "discovery"
  | .fetch => "fetch"
  | .extract => "extract"
  | .analyze => "analyze"
  | .store => "store"
  | .export => "export"

def PipelineStage.ofValue (s : String) : Option PipelineStage :=
  if s = "discovery" then some .discovery
  else if s = "fetch" then some .fetch
  else if s = "extract" then some .extract
  else if s = "analyze" then some .analyze
  else if s = "store" then some .store
  else if s = "export" then some .export
  else none

/-- Dataclass `Page` from src/models/page.py.  Field defaults mirror the
dataclass defaults (the `discovered_at` default factory is the clock, so it
stays an explicit argument). -/
structure Page where
  url : String
  job_id : String
  status : PageStatus := .discovered
  discovered_at : ℚ
  fetched_at : Option ℚ := none
  processed_at : Option ℚ := none
  status_code : Option ℤ := none
  content_type : Option String := none
  content_length : Option ℤ := none
  html_content : Option String := none
  title : Option String := none
  clean_content : Option String := none
  markdown_content : Option String := none
  extraction_method : Option String := none
  browser_fetched : Bool := false
  cleaned_html : Option String := none
  crawl4ai_markdown : Option String := none
  markdown_quality_score : Option ℚ := none
  internal_links : List String := []
  external_links : List String := []
  emails : List String := []
  social_media : List (String × List String) := []
  analysis_results : Option String := none
  analyzed_at : Option ℚ := none
  error_message : Option String := none
  retry_count : ℤ := 0
  max_retries : ℤ := 3
  deriving DecidableEq

namespace Page

/-- `Page.can_retry` from src/models/page.py. -/
def can_retry (p : Page) : Bool := p.retry_count < p.max_retries

/-- `Page.mark_failed` from src/models/page.py: sets status to failed,
replaces `error_message` with the given text, stamps `processed_at`. -/
def mark_failed (p : Page) (error : String) (now : ℚ) : Page :=
  { p with status := .failed, error_message := some error, processed_at := some now }

/-- `Page.add_error` from src/models/page.py: appends `"; " + error` when a
non-empty message is already present (Python truthiness: `None` and `""`
both take the plain-assignment branch). -/
def add_error (p : Page) (error : String) : Page :=
  match p.error_message with
  | some m =>
      if m ≠ "" then { p with error_message := some (m ++ "; " ++ error) }
      else { p with error_message := some error }
  | none => { p with error_message := some error }

end Page

/-- The four queue files of `URLQueue` (src/storage/checkpoints.py) for one
job: pending / processing / completed / failed lists of pages. -/
structure QState where
  pending : List Page
  processing : List Page
  completed : List Page
  failed : List Page
  deriving DecidableEq

def qempty : QState := ⟨[], [], [], []⟩

namespace URLQueue

/-- `URLQueue.add_pending`: `_append_to_file` on the pending file (load,
extend, save) — a plain append with no deduplication. -/
def add_pending (s : QState) (pages : List Page) : QState :=
  { s with pending := s.pending ++ pages }

/-- `URLQueue.get_pending_batch`: when pending is non-empty, moves the first
`batch_size` pages from pending to processing and returns them. -/
def get_pending_batch (s : QState) (batch_size : ℕ) : List Page × QState :=
  if s.pending = [] then ([], s)
  else
    (s.pending.take batch_size,
      { s with
          pending := s.pending.drop batch_size,
          processing := s.processing ++ s.pending.take batch_size })

/-- `URLQueue.mark_completed`: removes pages whose URL is among the given
pages' URLs from processing, then appends the given pages to completed
(`_append_to_file`, unconditionally). -/
def mark_completed (s : QState) (pages : List Page) : QState :=
  let completed_urls := pages.map Page.url
  { s with
      processing := s.processing.filter (fun p => decide (p.url ∉ completed_urls)),
      completed := s.completed ++ pages }

/-- `URLQueue.mark_failed`: same shape as `mark_completed`, targeting the
failed queue. -/
def mark_failed (s : QState) (pages : List Page) : QState :=
  let failed_urls := pages.map Page.url
  { s with
      processing := s.processing.filter (fun p => decide (p.url ∉ failed_urls)),
      failed := s.failed ++ pages }

/-- `URLQueue.get_counts`: sizes of the four queues. -/
def get_counts (s : QState) : ℕ × ℕ × ℕ × ℕ :=
  (s.pending.length, s.processing.length, s.completed.length, s.failed.length)

end URLQueue

/-- One frontier operation, as named in claim C3. -/
inductive QOp
  | add (pages : List Page)
  | deq (batch_size : ℕ)
  | markC (pages : List Page)
  | markF (pages : List Page)

/-- Applies one frontier operation to the queue state. -/
def QOp.apply (s : QState) : QOp → QState
  | .add ps => URLQueue.add_pending s ps
  | .deq n => (URLQueue.get_pending_batch s n).2
  | .markC ps => URLQueue.mark_completed s ps
  | .markF ps => URLQueue.mark_failed s ps

/-- Runs a sequence of frontier operations from a given state. -/
def runFrom (s : QState) (ops : List QOp) : QState := ops.foldl QOp.apply s

/-- Runs a sequence of frontier operations from the empty frontier. -/
def runOps (ops : List QOp) : QState := runFrom qempty ops

/-- Sum of the four queue sizes. -/
def totalLen (s : QState) : ℕ :=
  s.pending.length + s.processing.length + s.completed.length + s.failed.length

/-- All URLs ever passed to `add_pending` in the sequence, in order. -/
def enqueuedUrls : List QOp → List String
  | [] => []
  | .add ps :: rest => ps.map Page.url ++ enqueuedUrls rest
  | _ :: rest => enqueuedUrls rest

/-- Number of distinct URLs ever enqueued by the sequence. -/
def distinctEnqueued (ops : List QOp) : ℕ := (enqueuedUrls ops).dedup.length

/-- URLs of every page currently in any of the four queues. -/
def allUrls (s : QState) : List String :=
  (s.pending ++ s.processing ++ s.completed ++ s.failed).map Page.url

/-- Well-formedness of one frontier operation at a state (the hypotheses of
the amended C3): an enqueue brings pairwise-distinct URLs none of which is
anywhere in the frontier, and a mark call names pairwise-distinct URLs all
currently in the processing queue. -/
def wfOp (s : QState) : QOp → Prop
  | .add ps => (ps.map Page.url).Nodup ∧ ∀ u ∈ ps.map Page.url, u ∉ allUrls s
  | .deq _ => True
  | .markC ps =>
      (ps.map Page.url).Nodup ∧ ∀ u ∈ ps.map Page.url, u ∈ s.processing.map Page.url
  | .markF ps =>
      (ps.map Page.url).Nodup ∧ ∀ u ∈ ps.map Page.url, u ∈ s.processing.map Page.url

/-- Well-formedness of an operation sequence run from a state. -/
def wfOps (s : QState) : List QOp → Prop
  | [] => True
  | op :: rest => wfOp s op ∧ wfOps (QOp.apply s op) rest

/-- Tagged ISO-8601 rendering of a datetime.  Python's
`datetime.fromisoformat(d.isoformat()) == d` holds exactly, so the encoding
is modelled as a tagged copy of the timestamp. -/
structure IsoString where
  stamp : ℚ
  deriving DecidableEq

/-- `datetime.isoformat` as used by the JSON encoder. -/
def isoformat (t : ℚ) : IsoString := ⟨t⟩

/-- `datetime.fromisoformat` as used by `_deserialize_checkpoint`. -/
def fromisoformat (s : IsoString) : ℚ := s.stamp

/-- Dataclass `CrawlJob` from src/models/job.py.  `config` is an opaque
JSON-able dict, modelled as an uninterpreted association list. -/
structure CrawlJob where
  job_id : String
  domain : String
  status : JobStatus := .pending
  created_at : ℚ
  started_at : Option ℚ := none
  completed_at : Option ℚ := none
  config : List (String × String) := []
  total_pages : ℤ := 0
  processed_pages : ℤ := 0
  failed_pages : ℤ := 0
  subdomains_found : ℤ := 0
  deriving DecidableEq

/-- Dataclass `PipelineState` from src/models/job.py. -/
structure PipelineState where
  job_id : String
  current_stage : PipelineStage
  stage_progress : List (String × String) := []
  last_checkpoint : ℚ
  pending_urls : ℤ := 0
  processing_urls : ℤ := 0
  completed_urls : ℤ := 0
  failed_urls : ℤ := 0
  deriving DecidableEq

/-- JSON image of a `Page` produced by `dataclasses.asdict` plus the custom
`JSONEncoder` (src/storage/checkpoints.py): every field is present, enums
become their string value, datetimes become ISO strings, sets become
arrays. -/
structure SerializedPage where
  url : String
  job_id : String
  status : String
  discovered_at : IsoString
  fetched_at : Option IsoString
  processed_at : Option IsoString
  status_code : Option ℤ
  content_type : Option String
  content_length : Option ℤ
  html_content : Option String
  title : Option String
  clean_content : Option String
  markdown_content : Option String
  extraction_method : Option String
  browser_fetched : Bool
  cleaned_html : Option String
  crawl4ai_markdown : Option String
  markdown_quality_score : Option ℚ
  internal_links : List String
  external_links : List String
  emails : List String
  social_media : List (String × List String)
  analysis_results : Option String
  analyzed_at : Option IsoString
  error_message : Option String
  retry_count : ℤ
  max_retries : ℤ
  deriving DecidableEq

/-- Serialization of one `Page` record as written by
`CheckpointManager.save_checkpoint` via the custom encoder. -/
def serializePage (p : Page) : SerializedPage where
  url := p.url
  job_id := p.job_id
  status := p.status.value
  discovered_at := isoformat p.discovered_at
  fetched_at := p.fetched_at.map isoformat
  processed_at := p.processed_at.map isoformat
  status_code := p.status_code
  content_type := p.content_type
  content_length := p.content_length
  html_content := p.html_content
  title := p.title
  clean_content := p.clean_content
  markdown_content := p.markdown_content
  extraction_method := p.extraction_method
  browser_fetched := p.browser_fetched
  cleaned_html := p.cleaned_html
  crawl4ai_markdown := p.crawl4ai_markdown
  markdown_quality_score := p.markdown_quality_score
  internal_links := p.internal_links
  external_links := p.external_links
  emails := p.emails
  social_media := p.social_media
  analysis_results := p.analysis_results
  analyzed_at := p.analyzed_at.map isoformat
  error_message := p.error_message
  retry_count := p.retry_count
  max_retries := p.max_retries

/-- Page restoration from `CheckpointManager._deserialize_checkpoint`'s
inner `restore_pages`: constructs the page from url / job_id / status /
discovered_at, then restores only the fields in its fixed field list plus
the four set fields.  `extraction_method`, `browser_fetched`,
`cleaned_html`, `crawl4ai_markdown`, `markdown_quality_score`,
`analysis_results` and `analyzed_at` are not in that list and keep their
dataclass defaults.  An unknown status string raises, modelled as `none`. -/
def restorePage (d : SerializedPage) : Option Page := do
  let st ← PageStatus.ofValue d.status
  some { url := d.url
         job_id := d.job_id
         status := st
         discovered_at := fromisoformat d.discovered_at
         fetched_at := d.fetched_at.map fromisoformat
         processed_at := d.processed_at.map fromisoformat
         status_code := d.status_code
         content_type := d.content_type
         content_length := d.content_length
         html_content := d.html_content
         title := d.title
         clean_content := d.clean_content
         markdown_content := d.markdown_content
         internal_links := d.internal_links
         external_links := d.external_links
         emails := d.emails
         social_media := d.social_media
         error_message := d.error_message
         retry_count := d.retry_count
         max_retries := d.max_retries }

/-- JSON image of a `CrawlJob`. -/
structure SerializedJob where
  job_id : String
  domain : String
  status : String
  created_at : IsoString
  started_at : Option IsoString
  completed_at : Option IsoString
  config : List (String × String)
  total_pages : ℤ
  processed_pages : ℤ
  failed_pages : ℤ
  subdomains_found : ℤ
  deriving DecidableEq

def serializeJob (j : CrawlJob) : SerializedJob where
  job_id := j.job_id
  domain := j.domain
  status := j.status.value
  created_at := isoformat j.created_at
  started_at := j.started_at.map isoformat
  completed_at := j.completed_at.map isoformat
  config := j.config
  total_pages := j.total_pages
  processed_pages := j.processed_pages
  failed_pages := j.failed_pages
  subdomains_found := j.subdomains_found

/-- Job restoration from `_deserialize_checkpoint`: every `CrawlJob` field
is restored (optional datetimes via their truthiness guard). -/
def restoreJob (d : SerializedJob) : Option CrawlJob := do
  let st ← JobStatus.ofValue d.status
  some { job_id := d.job_id
         domain := d.domain
         status := st
         created_at := fromisoformat d.created_at
         started_at := d.started_at.map fromisoformat
         completed_at := d.completed_at.map fromisoformat
         config := d.config
         total_pages := d.total_pages
         processed_pages := d.processed_pages
         failed_pages := d.failed_pages
         subdomains_found := d.subdomains_found }

/-- JSON image of a `PipelineState`. -/
structure SerializedPipelineState where
  job_id : String
  current_stage : String
  stage_progress : List (String × String)
  last_checkpoint : IsoString
  pending_urls : ℤ
  processing_urls : ℤ
  completed_urls : ℤ
  failed_urls : ℤ
  deriving DecidableEq

def serializePipelineState (s : PipelineState) : SerializedPipelineState where
  job_id := s.job_id
  current_stage := s.current_stage.value
  stage_progress := s.stage_progress
  last_checkpoint := isoformat s.last_checkpoint
  pending_urls := s.pending_urls
  processing_urls := s.processing_urls
  completed_urls := s.completed_urls
  failed_urls := s.failed_urls

/-- Pipeline-state restoration from `_deserialize_checkpoint`: every field
is restored. -/
def restorePipelineState (d : SerializedPipelineState) : Option PipelineState := do
  let st ← PipelineStage.ofValue d.current_stage
  some { job_id := d.job_id
         current_stage := st
         stage_progress := d.stage_progress
         last_checkpoint := fromisoformat d.last_checkpoint
         pending_urls := d.pending_urls
         processing_urls := d.processing_urls
         completed_urls := d.completed_urls
         failed_urls := d.failed_urls }

/-- Checkpoint file contents (src/storage/checkpoints.py,
`save_checkpoint`): job, pipeline state, the four page lists and the
checkpoint time. -/
structure SerializedCheckpoint where
  job : SerializedJob
  pipeline_state : SerializedPipelineState
  pending_pages : List SerializedPage
  processing_pages : List SerializedPage
  completed_pages : List SerializedPage
  failed_pages : List SerializedPage
  checkpoint_time : IsoString
  deriving DecidableEq

/-- In-memory checkpoint as returned by `_deserialize_checkpoint`. -/
structure Checkpoint where
  job : CrawlJob
  pipeline_state : PipelineState
  pending_pages : List Page
  processing_pages : List Page
  completed_pages : List Page
  failed_pages : List Page
  checkpoint_time : ℚ
  deriving DecidableEq

namespace CheckpointManager

/-- `CheckpointManager.save_checkpoint`'s serialization of its arguments;
`None` page-list arguments default to `[]` (`pending_pages or []`). -/
def save_checkpoint (job : CrawlJob) (ps : PipelineState)
    (pending_pages processing_pages completed_pages failed_pages : Option (List Page))
    (now : ℚ) : SerializedCheckpoint where
  job := serializeJob job
  pipeline_state := serializePipelineState ps
  pending_pages := (pending_pages.getD []).map serializePage
  processing_pages := (processing_pages.getD []).map serializePage
  completed_pages := (completed_pages.getD []).map serializePage
  failed_pages := (failed_pages.getD []).map serializePage
  checkpoint_time := isoformat now

/-- `CheckpointManager._deserialize_checkpoint`. -/
def deserialize_checkpoint (d : SerializedCheckpoint) : Option Checkpoint := do
  let job ← restoreJob d.job
  let ps ← restorePipelineState d.pipeline_state
  let pend ← d.pending_pages.mapM restorePage
  let proc ← d.processing_pages.mapM restorePage
  let compl ← d.completed_pages.mapM restorePage
  let fail ← d.failed_pages.mapM restorePage
  some { job := job
         pipeline_state := ps
         pending_pages := pend
         processing_pages := proc
         completed_pages := compl
         failed_pages := fail
         checkpoint_time := fromisoformat d.checkpoint_time }

end CheckpointManager

/-- The page fields that `restore_pages` never restores, reset to their
dataclass defaults; a round-tripped page equals this projection of the
original. -/
def clearUnrestored (p : Page) : Page :=
  { p with
      extraction_method := none
      browser_fetched := false
      cleaned_html := none
      crawl4ai_markdown := none
      markdown_quality_score := none
      analysis_results := none
      analyzed_at := none }

namespace PipelineManager

/-- `PipelineManager._save_checkpoint` calls
`checkpoint_manager.save_checkpoint(self.current_job, self.pipeline_state)`
with no page lists, so every saved checkpoint has four empty page lists. -/
def save_checkpoint_call (job : CrawlJob) (ps : PipelineState) (now : ℚ) :
    SerializedCheckpoint :=
  CheckpointManager.save_checkpoint job ps none none none none now

/-- Queue-file effect of `PipelineManager.resume_job` (src/pipeline/manager.py):
reattaches `URLQueue(job_id)` to the existing queue files and, when the
checkpoint's pending-page list is non-empty (Python truthiness), appends it
to the pending file.  No other queue is touched. -/
def resume_job_queues (files : QState) (cp : Checkpoint) : QState :=
  if cp.pending_pages ≠ [] then URLQueue.add_pending files cp.pending_pages
  else files

end PipelineManager

/-- State of `AdaptiveRateLimiter` (src/pipeline/fetcher.py).  The fixed
thresholds (`max_response_history = 50`, `fast_response_threshold = 0.5`,
`slow_response_threshold = 3.0`) are kept as the constants below. -/
structure RateLimiterState where
  base_delay : ℚ
  max_delay : ℚ
  current_delay : ℚ
  last_request_time : Option ℚ := none
  consecutive_errors : ℕ := 0
  success_count : ℕ := 0
  response_times : List ℚ := []
  rate_limit_violations : ℕ := 0
  last_rate_limit_time : Option ℚ := none
  server_error_count : ℕ := 0
  blocking_indicators : ℕ := 0
  deriving DecidableEq

namespace AdaptiveRateLimiter

def max_response_history : ℕ := 50

def fast_response_threshold : ℚ := 1 / 2

def slow_response_threshold : ℚ := 3

/-- `AdaptiveRateLimiter.__init__`. -/
def init (base_delay : ℚ := 1) (max_delay : ℚ := 30) : RateLimiterState :=
  { base_delay := base_delay, max_delay := max_delay, current_delay := base_delay }

/-- `_adjust_delay_from_response_time`: no-op below 5 recorded samples;
otherwise compares the average of the last 10 samples against the fast /
slow thresholds and nudges the delay, clamped to the configured band. -/
def adjust_delay_from_response_time (s : RateLimiterState) (response_time : ℚ) :
    RateLimiterState :=
  if s.response_times.length < 5 then s
  else
    let recent := s.response_times.drop (s.response_times.length - 10)
    let avg := recent.sum / (min s.response_times.length 10 : ℚ)
    if avg < fast_response_threshold ∧ response_time < fast_response_threshold then
      if s.current_delay > s.base_delay then
        { s with current_delay := max s.base_delay (s.current_delay * (95 / 100)) }
      else s
    else if avg > slow_response_threshold then
      { s with current_delay := min s.max_delay (s.current_delay * (11 / 10)) }
    else s

/-- `AdaptiveRateLimiter.on_success`. -/
def on_success (s : RateLimiterState) (response_time : ℚ := 0) : RateLimiterState :=
  let s := { s with
               consecutive_errors := 0
               success_count := s.success_count + 1
               server_error_count := 0 }
  let s :=
    if 0 < response_time then
      let ts := s.response_times ++ [response_time]
      { s with response_times := if max_response_history < ts.length then ts.drop 1 else ts }
    else s
  let s := adjust_delay_from_response_time s response_time
  if 10 < s.success_count ∧ s.base_delay < s.current_delay then
    { s with
        current_delay := max s.base_delay (s.current_delay * (9 / 10))
        success_count := 0 }
  else s

def rate_limit_header_names : List String :=
  ["x-ratelimit-remaining", "x-rate-limit-remaining",
   "ratelimit-remaining", "x-ratelimit-limit"]

def protection_header_names : List String := ["cf-ray", "x-sucuri-id", "x-drupal-cache"]

/-- Exact-key dictionary lookup `headers.get(k, "")`. -/
def headerGet (headers : List (String × String)) (k : String) : String :=
  ((headers.find? (fun kv => kv.1 = k)).map (fun kv => kv.2)).getD ""

/-- `_analyze_blocking_indicators`: adds indicator points for exhausted
rate-limit headers, a Retry-After header, and protection-service headers
co-occurring with 403/429/503.  Note the source checks membership against
lowercased keys but reads the value with the exact lowercase name, so a
mixed-case header matches the membership test yet reads back as `""`. -/
def analyze_blocking_indicators (s : RateLimiterState) (status_code : Option ℤ)
    (headers : List (String × String)) : RateLimiterState :=
  let lowerKeys := headers.map (fun kv => strLower kv.1)
  let s := rate_limit_header_names.foldl
    (fun s h =>
      if h ∈ lowerKeys then
        let value := (headerGet headers h).trim
        match value.toInt? with
        | some v => if value ≠ "" ∧ v = 0 then
            { s with blocking_indicators := s.blocking_indicators + 2 } else s
        | none => s
      else s) s
  let s :=
    if "retry-after" ∈ lowerKeys then
      { s with blocking_indicators := s.blocking_indicators + 2 }
    else s
  protection_header_names.foldl
    (fun s h =>
      if h ∈ lowerKeys then
        if status_code = some 403 ∨ status_code = some 429 ∨ status_code = some 503 then
          { s with blocking_indicators := s.blocking_indicators + 1 }
        else s
      else s) s

/-- `AdaptiveRateLimiter.on_error`: bumps the consecutive-error count,
analyzes headers, then applies the status-specific delay multiplier
(429 → 2.5 with a recorded violation, 403 → 2, 5xx → 1.5, 404 → 1.1,
other → 1.2), always clamping at `max_delay`.  Python's
`status_code and status_code >= 500` truthiness guard is mirrored by
`c ≠ 0`. -/
def on_error (s : RateLimiterState) (status_code : Option ℤ)
    (headers : List (String × String)) (now : ℚ) : RateLimiterState :=
  let s := { s with consecutive_errors := s.consecutive_errors + 1, success_count := 0 }
  let s := analyze_blocking_indicators s status_code headers
  match status_code with
  | some c =>
      if c = 429 then
        { s with
            rate_limit_violations := s.rate_limit_violations + 1
            last_rate_limit_time := some now
            current_delay := min s.max_delay (s.current_delay * (5 / 2))
            blocking_indicators := s.blocking_indicators + 2 }
      else if c = 403 then
        { s with
            blocking_indicators := s.blocking_indicators + 3
            current_delay := min s.max_delay (s.current_delay * 2) }
      else if c ≠ 0 ∧ 500 ≤ c then
        let s := { s with
                     server_error_count := s.server_error_count + 1
                     current_delay := min s.max_delay (s.current_delay * (3 / 2)) }
        if 3 < s.server_error_count then
          { s with blocking_indicators := s.blocking_indicators + 1 }
        else s
      else if c = 404 then
        { s with current_delay := min s.max_delay (s.current_delay * (11 / 10)) }
      else
        { s with
            current_delay := min s.max_delay (s.current_delay * (6 / 5))
            blocking_indicators := s.blocking_indicators + 1 }
  | none =>
      { s with
          current_delay := min s.max_delay (s.current_delay * (6 / 5))
          blocking_indicators := s.blocking_indicators + 1 }

/-- `AdaptiveRateLimiter.is_blocked`. -/
def is_blocked (s : RateLimiterState) (now : ℚ) : Bool :=
  (5 < s.consecutive_errors) ||
  (2 < s.rate_limit_violations) ||
  (8 < s.blocking_indicators) ||
  (match s.last_rate_limit_time with
   | some t => decide (now - t < 600) && decide (2 < s.consecutive_errors)
   | none => false)

/-- `AdaptiveRateLimiter.get_blocking_severity`. -/
def get_blocking_severity (s : RateLimiterState) (now : ℚ) : String :=
  if is_blocked s now then "blocked"
  else if 4 < s.blocking_indicators ∨ 3 < s.consecutive_errors then "throttled"
  else if s.base_delay * 2 < s.current_delay then "limited"
  else "normal"

/-- `AdaptiveRateLimiter.wait`: records the request time (the sleep itself
has no modelled effect beyond the passage of time). -/
def wait (s : RateLimiterState) (now : ℚ) : RateLimiterState :=
  { s with last_request_time := some now }

end AdaptiveRateLimiter

/-- One call in a sequence applied to a rate limiter: either
`on_success(response_time)` or `on_error(status_code, headers)` at some
clock reading. -/
inductive RLEvent
  | succ (response_time : ℚ)
  | err (status_code : Option ℤ) (headers : List (String × String)) (now : ℚ)

def RLEvent.apply (s : RateLimiterState) : RLEvent → RateLimiterState
  | .succ rt => AdaptiveRateLimiter.on_success s rt
  | .err code headers now => AdaptiveRateLimiter.on_error s code headers now

/-- Runs a sequence of on_success / on_error calls on a limiter state. -/
def runRL (s : RateLimiterState) (events : List RLEvent) : RateLimiterState :=
  events.foldl RLEvent.apply s

namespace BotDetector

/-- `BotDetector.CHALLENGE_DOMAINS` (src/pipeline/fetcher.py). -/
def challenge_domains : List String :=
  ["validate.perfdrive.com", "challenges.cloudflare.com",
   "www.google.com/recaptcha", "hcaptcha.com", "geo.captcha-delivery.com"]

/-- `BotDetector.CHALLENGE_INDICATORS` (src/pipeline/fetcher.py). -/
def challenge_indicators : List String :=
  ["bot detection", "bot manager", "automated access", "verify you are human",
   "cloudflare", "checking your browser", "enable javascript", "radware",
   "please verify", "security check", "access denied", "captcha"]

end BotDetector

/-- A `requests.Response` as consumed by the fetch stage: final URL after
redirects, status code, body text, headers, and the redirect-history status
codes. -/
structure HTTPResponse where
  url : String
  status_code : ℤ
  text : String
  headers : List (String × String)
  history : List ℤ
  deriving DecidableEq

/-- Case-insensitive header lookup `response.headers.get(k, '')`
(`requests` response headers are case-insensitive). -/
def headerGetCI (headers : List (String × String)) (k : String) : String :=
  ((headers.find? (fun kv => strLower kv.1 = strLower k)).map (fun kv => kv.2)).getD ""

namespace BotDetector

/-- Number of challenge phrases occurring in the lowercased body. -/
def countChallengeMatches (text : String) : ℕ :=
  challenge_indicators.countP (fun ind => strIn ind (strLower text))

/-- `BotDetector.is_bot_challenge_response`: challenge-service final URL,
or at least 2 challenge phrases in a non-empty body, or a 403 whose server
header names a known anti-bot vendor. -/
def is_bot_challenge_response (r : HTTPResponse) : Bool :=
  (challenge_domains.any (fun d => strIn d (strLower r.url))) ||
  (r.text != "" && decide (2 ≤ countChallengeMatches r.text)) ||
  (decide (r.status_code = 403) &&
    (strIn "cloudflare" (strLower (headerGetCI r.headers "server")) ||
     strIn "radware" (strLower (headerGetCI r.headers "server"))))

/-- `BotDetector.should_use_browser`: a recorded bot-challenge error
message, or more than one retry with a 403/429 failure. -/
def should_use_browser (p : Page) : Bool :=
  (match p.error_message with
   | some m =>
       m != "" &&
         (strIn "bot challenge" (strLower m) || strIn "bot detection" (strLower m))
   | none => false) ||
  (decide (1 < p.retry_count) && decide (p.status = PageStatus.failed) &&
    (decide (p.status_code = some 403) || decide (p.status_code = some 429)))

end BotDetector

/-- The `CrawlConfig` fields consulted by the HTTP fetch stage. -/
structure FetcherConfig where
  base_delay : ℚ := 1
  max_delay : ℚ := 30
  request_timeout : ℤ := 30
  enable_browser_fallback : Bool := true
  deriving DecidableEq

/-- Mutable state of `HTTPFetcherStage`: per-domain rate limiters, the
domain cooldown table, and the fetch counters. -/
structure FetcherState where
  rate_limiters : List (String × RateLimiterState) := []
  blocked_domains : List (String × ℚ) := []
  browser_fetch_count : ℕ := 0
  total_fetch_count : ℕ := 0
  deriving DecidableEq

/-- What one `process_item` call did besides transforming the page: whether
a network GET was issued, whether the HTTP body was accepted as fetched
content, how many times the browser path was dispatched, and the page
snapshot handed to the browser path. -/
structure FetchEffects where
  httpAttempted : Bool
  acceptedHttpContent : Bool
  browserDispatches : ℕ
  dispatchedPage : Option Page
  deriving DecidableEq

def noEffects : FetchEffects :=
  { httpAttempted := false, acceptedHttpContent := false,
    browserDispatches := 0, dispatchedPage := none }

/-- Result of the network GET, supplied as an oracle: a response together
with its measured response time, or a raised network exception with the
message used by the corresponding handler. -/
inductive NetResult
  | resp (r : HTTPResponse) (response_time : ℚ)
  | exc (msg : String)

namespace HTTPFetcher

/-- Dictionary write `self.rate_limiters[domain] = rl` (or in-place
mutation of the stored limiter object). -/
def setLimiter (rls : List (String × RateLimiterState)) (domain : String)
    (rl : RateLimiterState) : List (String × RateLimiterState) :=
  rls.filter (fun kv => kv.1 != domain) ++ [(domain, rl)]

/-- `_is_domain_blocked`: inside the 1-hour cooldown window the domain is
blocked; an expired entry is deleted. -/
def is_domain_blocked (bd : List (String × ℚ)) (domain : String) (now : ℚ) :
    Bool × List (String × ℚ) :=
  match bd.lookup domain with
  | some t =>
      if now < t + 3600 then (true, bd)
      else (false, bd.filter (fun kv => kv.1 != domain))
  | none => (false, bd)

/-- `_mark_domain_blocked`: records the cooldown start time. -/
def mark_domain_blocked (bd : List (String × ℚ)) (domain : String) (now : ℚ) :
    List (String × ℚ) :=
  bd.filter (fun kv => kv.1 != domain) ++ [(domain, now)]

/-- `_apply_degradation_strategy`: for "blocked", start the domain cooldown,
triple the delay (clamped) and partially decay the indicator/error counters
(Python `max(0, x - k)` is natural-number truncated subtraction here); for
"throttled" multiply the delay by 1.8; for "limited" by 1.3. -/
def apply_degradation_strategy (st : FetcherState) (domain : String)
    (rl : RateLimiterState) (severity : String) (now : ℚ) :
    FetcherState × RateLimiterState :=
  if severity = "blocked" then
    ({ st with blocked_domains := mark_domain_blocked st.blocked_domains domain now },
     { rl with
         current_delay := min rl.max_delay (rl.current_delay * 3)
         blocking_indicators := rl.blocking_indicators - 5
         consecutive_errors := rl.consecutive_errors - 3 })
  else if severity = "throttled" then
    (st, { rl with current_delay := min rl.max_delay (rl.current_delay * (9 / 5)) })
  else if severity = "limited" then
    (st, { rl with current_delay := min rl.max_delay (rl.current_delay * (13 / 10)) })
  else (st, rl)

/-- `_fetch_with_browser`: the browser pool fetch is the oracle `bfetch`
(`none` models a raised exception).  After a successful pool fetch the
browser counter is bumped and a fetched page with a falsy
`extraction_method` is stamped `"browser"`. -/
def fetch_with_browser (cfg : FetcherConfig) (st : FetcherState)
    (bfetch : Page → Option Page) (p : Page) (now : ℚ) : Page × FetcherState :=
  if ¬ cfg.enable_browser_fallback then
    (p.mark_failed "Browser fallback disabled in configuration" now, st)
  else
    match bfetch p with
    | some p1 =>
        let st := { st with browser_fetch_count := st.browser_fetch_count + 1 }
        let p1 :=
          if p1.status = PageStatus.fetched ∧
              (p1.extraction_method = none ∨ p1.extraction_method = some "") then
            { p1 with extraction_method := some "browser" }
          else p1
        (p1, st)
    | none => (p.mark_failed "Browser fetch error" now, st)

/-- Limiter-table update `if domain not in self.rate_limiters:
self.rate_limiters[domain] = AdaptiveRateLimiter(...)`. -/
def ensureLimiters (cfg : FetcherConfig) (rls : List (String × RateLimiterState))
    (domain : String) : List (String × RateLimiterState) :=
  if (rls.lookup domain).isNone then
    rls ++ [(domain, AdaptiveRateLimiter.init cfg.base_delay cfg.max_delay)]
  else rls

/-- The limiter `self.rate_limiters[domain]` consulted by `process_item`
after the table update. -/
def limiterFor (cfg : FetcherConfig) (rls : List (String × RateLimiterState))
    (domain : String) : RateLimiterState :=
  ((ensureLimiters cfg rls domain).lookup domain).getD
    (AdaptiveRateLimiter.init cfg.base_delay cfg.max_delay)

/-- `HTTPFetcherStage.process_item` (src/pipeline/fetcher.py): the fetch of
one page.  The network GET result and the browser pool are oracles; the
`job` argument of the source is only forwarded to the browser pool and is
absorbed into `bfetch`. -/
def process_item (cfg : FetcherConfig) (st : FetcherState) (p : Page)
    (now : ℚ) (net : NetResult) (bfetch : Page → Option Page) :
    Page × FetcherState × FetchEffects :=
  if p.status ≠ PageStatus.discovered then (p, st, noEffects)
  else if BotDetector.should_use_browser p then
    let r := fetch_with_browser cfg st bfetch p now
    (r.1, r.2,
      { httpAttempted := false, acceptedHttpContent := false,
        browserDispatches := 1, dispatchedPage := some p })
  else
    let domain := urlNetloc p.url
    let blocked := is_domain_blocked st.blocked_domains domain now
    let st := { st with blocked_domains := blocked.2 }
    if blocked.1 then (p.mark_failed "Domain temporarily blocked" now, st, noEffects)
    else
      let rl := limiterFor cfg st.rate_limiters domain
      let st := { st with rate_limiters := ensureLimiters cfg st.rate_limiters domain }
      let severity := AdaptiveRateLimiter.get_blocking_severity rl now
      if AdaptiveRateLimiter.is_blocked rl now then
        let d := apply_degradation_strategy st domain rl "blocked" now
        let st := { d.1 with rate_limiters := setLimiter d.1.rate_limiters domain d.2 }
        (p.mark_failed "Domain blocked - applying cooldown" now, st, noEffects)
      else
        let d :=
          if severity = "throttled" then apply_degradation_strategy st domain rl "throttled" now
          else (st, rl)
        let st := d.1
        let rl := AdaptiveRateLimiter.wait d.2 now
        let p := { p with status := PageStatus.fetching }
        match net with
        | .exc msg =>
            let rl := AdaptiveRateLimiter.on_error rl none [] now
            let st := { st with rate_limiters := setLimiter st.rate_limiters domain rl }
            (p.mark_failed msg now, st,
              { httpAttempted := true, acceptedHttpContent := false,
                browserDispatches := 0, dispatchedPage := none })
        | .resp r response_time =>
            let p := { p with
                         status_code := some r.status_code
                         content_type := some (headerGetCI r.headers "content-type")
                         content_length := some (r.text.length : ℤ)
                         fetched_at := some now }
            let p := if r.history ≠ [] then { p with url := r.url } else p
            if r.status_code = 200 then
              if BotDetector.is_bot_challenge_response r then
                let p := { p with
                             error_message := some "Bot challenge detected"
                             status := PageStatus.discovered }
                let b := fetch_with_browser cfg st bfetch p now
                (b.1,
                  { b.2 with rate_limiters := setLimiter b.2.rate_limiters domain rl },
                  { httpAttempted := true, acceptedHttpContent := false,
                    browserDispatches := 1, dispatchedPage := some p })
              else
                let p := { p with
                             html_content := some r.text
                             status := PageStatus.fetched
                             extraction_method := some "requests" }
                let rl := AdaptiveRateLimiter.on_success rl response_time
                let st := { st with
                              rate_limiters := setLimiter st.rate_limiters domain rl
                              total_fetch_count := st.total_fetch_count + 1 }
                (p, st,
                  { httpAttempted := true, acceptedHttpContent := true,
                    browserDispatches := 0, dispatchedPage := none })
            else
              let p := p.mark_failed ("HTTP " ++ toString r.status_code) now
              let rl := AdaptiveRateLimiter.on_error rl (some r.status_code) r.headers now
              let st := { st with rate_limiters := setLimiter st.rate_limiters domain rl }
              (p, st,
                { httpAttempted := true, acceptedHttpContent := false,
                  browserDispatches := 0, dispatchedPage := none })

end HTTPFetcher

/-- Outcome of a storage write whose underlying file I/O may raise: either
the exception propagates to the caller or the function returns normally;
the flag records whether the error was logged. -/
inductive WriteOutcome
  | raised (logged : Bool)
  | returned (logged : Bool)
  deriving DecidableEq

/-- `CheckpointManager.save_checkpoint` error handling: `except Exception:`
logs and re-raises. -/
def checkpoint_save_outcome (ioFails : Bool) : WriteOutcome :=
  if ioFails then .raised true else .returned false

/-- `DataStore.save_pages_json` error handling (src/storage/data_store.py):
logs and re-raises; `save_pages_csv` is identical. -/
def data_store_save_outcome (ioFails : Bool) : WriteOutcome :=
  if ioFails then .raised true else .returned false

/-- `URLQueue._save_pages` error handling (src/storage/checkpoints.py):
`except Exception:` logs the error and falls through — the method returns
normally whether or not the write failed. -/
def url_queue_save_pages_outcome (ioFails : Bool) : WriteOutcome :=
  if ioFails then .returned true else .returned false

/-- Fresh page as built by the discovery stage: all dataclass defaults. -/
def mkPage (u : String) : Page := { url := u, job_id := "job_1", discovered_at := 0 }

def pageA : Page := mkPage "https://example.edu/a"

def pageB : Page := mkPage "https://example.edu/b"

def pageC : Page := { mkPage "https://example.edu/c" with status := PageStatus.fetching }

def jobC1 : CrawlJob := { job_id := "job_1", domain := "example.edu", created_at := 0 }

def psC1 : PipelineState := { job_id := "job_1", current_stage := .fetch, last_checkpoint := 0 }

/-- Queue files of a crashed run: A and B pending, C stranded in
processing. -/
def filesC1 : QState :=
  { pending := [pageA, pageB], processing := [pageC], completed := [], failed := [] }

/-- Browser pool oracle that always raises (never consulted in the
scenarios below). -/
def noBrowser : Page → Option Page := fun _ => none

/-- C7 scenario: limiter state of `example.edu` (base 1 s, cap 30 s) after
`on_success` for the 200 response and three `on_error(429)` calls. -/
def c7AfterCalls : RateLimiterState :=
  runRL (AdaptiveRateLimiter.init 1 30)
    [.succ 1, .err (some 429) [] 10, .err (some 429) [] 20, .err (some 429) [] 30]

def c7Response200 : HTTPResponse :=
  { url := "https://example.edu/1", status_code := 200, text := "welcome",
    headers := [], history := [] }

def c7Response429 : HTTPResponse :=
  { url := "https://example.edu/x", status_code := 429, text := "too many requests",
    headers := [], history := [] }

/-- Fetcher state of the C7 scenario right before the 5th attempt: the
`example.edu` limiter carries the post-sequence counters and the domain is
not yet in cooldown. -/
def c7StateAfter : FetcherState :=
  { rate_limiters := [("example.edu", c7AfterCalls)] }

/-- The 5th fetch attempt of the C7 scenario; the network oracle is a dummy
because the call must short-circuit before any GET. -/
def c7FifthAttempt : Page × FetcherState × FetchEffects :=
  HTTPFetcher.process_item {} c7StateAfter (mkPage "https://example.edu/5") 40
    (NetResult.exc "no network call issued") noBrowser

/-- C10: if a page's status is not `discovered`, `process_item` returns the
page unchanged, leaves the whole fetcher state (rate limiters, cooldowns,
counters) untouched, performs no network attempt and no browser dispatch. -/
theorem c10_fetch_noop_guard (cfg : FetcherConfig) (st : FetcherState) (p : Page)
    (now : ℚ) (net : NetResult) (bfetch : Page → Option Page)
    (h : p.status ≠ PageStatus.discovered) :
    HTTPFetcher.process_item cfg st p now net bfetch = (p, st, noEffects) := by
  unfold HTTPFetcher.process_item
  rw [if_pos h]

/-- Witness for C10 at a concrete fetched page and empty fetcher state. -/
theorem c10_fetch_noop_guard_witness :
    ({ mkPage "https://example.edu/w" with status := PageStatus.fetched } : Page).status ≠
        PageStatus.discovered ∧
    HTTPFetcher.process_item {} {}
        { mkPage "https://example.edu/w" with status := PageStatus.fetched } 0
        (NetResult.exc "Request timeout") (fun _ => none) =
      ({ mkPage "https://example.edu/w" with status := PageStatus.fetched }, {}, noEffects) :=
  ⟨by decide,
   c10_fetch_noop_guard {} {}
     { mkPage "https://example.edu/w" with status := PageStatus.fetched } 0
     (NetResult.exc "Request timeout") (fun _ => none) (by decide)⟩

/-- C1 (code bug): resuming from a checkpoint whose queue files hold
pending = [A, B] and processing = [C] leaves C stranded in processing — it
is not re-queued as pending.  `PipelineManager._save_checkpoint` saves no
page lists at all, so the loaded checkpoint's `pending_pages` is empty and
`resume_job` (which only re-appends that list) leaves every queue file
unchanged; nothing in the resume path touches the processing queue. -/
theorem c1_resume_leaves_processing_stranded :
    ((CheckpointManager.deserialize_checkpoint
          (PipelineManager.save_checkpoint_call jobC1 psC1 5)).map
        (fun cp => PipelineManager.resume_job_queues filesC1 cp) = some filesC1) ∧
    pageC ∈ filesC1.processing ∧
    "https://example.edu/c" ∉ filesC1.pending.map Page.url ∧
    (∀ files cp, (PipelineManager.resume_job_queues files cp).processing = files.processing) := by
  refine ⟨by decide, by decide, by decide, ?_⟩
  intro files cp
  unfold PipelineManager.resume_job_queues URLQueue.add_pending
  split <;> rfl

/-- C2 (code bug): re-marking an already completed page is not a no-op —
`mark_completed` appends the pages to the completed file unconditionally,
so the second call duplicates P's record in `completed`. -/
theorem c2_mark_completed_duplicates :
    (URLQueue.mark_completed
        (URLQueue.mark_completed
          (URLQueue.get_pending_batch
            (URLQueue.add_pending qempty [mkPage "https://example.edu/p"]) 10).2
          [mkPage "https://example.edu/p"])
        [mkPage "https://example.edu/p"]).completed =
      [mkPage "https://example.edu/p", mkPage "https://example.edu/p"] ∧
    (URLQueue.mark_completed
        (URLQueue.mark_completed
          (URLQueue.get_pending_batch
            (URLQueue.add_pending qempty [mkPage "https://example.edu/p"]) 10).2
          [mkPage "https://example.edu/p"])
        [mkPage "https://example.edu/p"]) ≠
      (URLQueue.mark_completed
        (URLQueue.get_pending_batch
          (URLQueue.add_pending qempty [mkPage "https://example.edu/p"]) 10).2
        [mkPage "https://example.edu/p"]) := by
  constructor
  · decide
  · decide

/-- C8 counterexample: `Page.mark_failed` replaces a non-empty
`error_message` outright — the old text "first error" is not a substring of
the new message "second". -/
theorem c8_counterexample_mark_failed_overwrites :
    (({ mkPage "https://example.edu/e" with error_message := some "first error" } : Page).mark_failed
        "second" 1).error_message = some "second" ∧
    ¬ ∃ pre post : String, "second" = pre ++ "first error" ++ post := by
  constructor
  · rfl
  · rintro ⟨pre, post, h⟩
    have hl := congrArg String.length h
    have h6 : "second".length = 6 := rfl
    have h11 : "first error".length = 11 := rfl
    rw [String.length_append, String.length_append, h11] at hl
    rw [h6] at hl
    omega

/-- C8 amended: `Page.add_error` is the append-only error recorder — a
non-empty prior message is preserved as a substring (in fact a prefix) of
the new message; `Page.mark_failed` by contrast replaces the message. -/
theorem c8_add_error_appends (p : Page) (e m : String)
    (hm : p.error_message = some m) (hne : m ≠ "") :
    (p.add_error e).error_message = some (m ++ "; " ++ e) ∧
    ∃ pre post : String, m ++ "; " ++ e = pre ++ m ++ post := by
  constructor
  · unfold Page.add_error
    rw [hm]
    simp [hne]
  · exact ⟨"", "; " ++ e, by simp [String.append_assoc]⟩

/-- Witness for C8's amended theorem at a concrete page. -/
theorem c8_add_error_appends_witness :
    ({ mkPage "https://example.edu/e2" with error_message := some "timeout" } : Page).error_message =
        some "timeout" ∧ "timeout" ≠ "" ∧
    (({ mkPage "https://example.edu/e2" with error_message := some "timeout" } : Page).add_error
        "HTTP 500").error_message = some ("timeout" ++ "; " ++ "HTTP 500") :=
  ⟨rfl, by decide,
   (c8_add_error_appends
      { mkPage "https://example.edu/e2" with error_message := some "timeout" }
      "HTTP 500" "timeout" rfl (by decide)).1⟩

/-- C9 counterexample: a failing frontier-queue file write is swallowed —
`URLQueue._save_pages` logs the exception and returns normally instead of
re-raising it. -/
theorem c9_counterexample_queue_swallows :
    url_queue_save_pages_outcome true = WriteOutcome.returned true ∧
    ∀ logged, url_queue_save_pages_outcome true ≠ WriteOutcome.raised logged := by
  constructor
  · decide
  · intro logged
    simp [url_queue_save_pages_outcome]

/-- C9 amended: checkpoint writes (`CheckpointManager.save_checkpoint`) and
data-store writes (`DataStore.save_pages_json`) log and re-raise I/O
errors, but the frontier queue layer (`URLQueue._save_pages`) never raises:
it logs and returns normally even when the write failed. -/
theorem c9_io_error_propagation :
    checkpoint_save_outcome true = WriteOutcome.raised true ∧
    data_store_save_outcome true = WriteOutcome.raised true ∧
    checkpoint_save_outcome false = WriteOutcome.returned false ∧
    data_store_save_outcome false = WriteOutcome.returned false ∧
    ∀ ioFails logged, url_queue_save_pages_outcome ioFails ≠ WriteOutcome.raised logged := by
  refine ⟨by decide, by decide, by decide, by decide, ?_⟩
  intro ioFails logged
  cases ioFails <;> simp [url_queue_save_pages_outcome]

theorem pageStatus_ofValue_value (s : PageStatus) : PageStatus.ofValue s.value = some s := by
  cases s <;> rfl

theorem jobStatus_ofValue_value (s : JobStatus) : JobStatus.ofValue s.value = some s := by
  cases s <;> rfl

theorem pipelineStage_ofValue_value (s : PipelineStage) :
    PipelineStage.ofValue s.value = some s := by
  cases s <;> rfl

theorem fromisoformat_isoformat (t : ℚ) : fromisoformat (isoformat t) = t := rfl

theorem map_fromiso_iso (x : Option ℚ) :
    Option.map (fromisoformat ∘ isoformat) x = x := by
  cases x <;> rfl

theorem restoreJob_serializeJob (j : CrawlJob) : restoreJob (serializeJob j) = some j := by
  unfold restoreJob serializeJob
  rw [jobStatus_ofValue_value]
  simp [Option.map_map, map_fromiso_iso, fromisoformat_isoformat]

theorem restorePipelineState_serialize (s : PipelineState) :
    restorePipelineState (serializePipelineState s) = some s := by
  unfold restorePipelineState serializePipelineState
  rw [pipelineStage_ofValue_value]
  simp [Option.map_map, map_fromiso_iso, fromisoformat_isoformat]

theorem restorePage_serializePage (p : Page) :
    restorePage (serializePage p) = some (clearUnrestored p) := by
  unfold restorePage serializePage clearUnrestored
  rw [pageStatus_ofValue_value]
  simp [Option.map_map, map_fromiso_iso, fromisoformat_isoformat]

theorem mapM_restore_serialize (l : List Page) :
    (l.map serializePage).mapM restorePage = some (l.map clearUnrestored) := by
  induction l with
  | nil => rfl
  | cons a t ih =>
      rw [List.map_cons, List.map_cons, List.mapM_cons, restorePage_serializePage, ih]
      rfl

theorem mapM_loop_restore (l : List Page) :
    List.mapM.loop restorePage (l.map serializePage) [] = some (l.map clearUnrestored) := by
  have h := mapM_restore_serialize l
  simpa [List.mapM] using h

/-- C5 counterexample: a page fetched through the browser path serializes
its `extraction_method = "browser"` into the checkpoint, but
`_deserialize_checkpoint`'s restore list omits that field, so the
round-tripped page silently loses it — `deserialize(serialize(x)) ≠ x`. -/
theorem c5_counterexample_extraction_lost :
    (restorePage (serializePage
        { mkPage "https://example.edu/r" with
            status := PageStatus.fetched
            extraction_method := some "browser" })).map Page.extraction_method =
      some none ∧
    ({ mkPage "https://example.edu/r" with
        status := PageStatus.fetched
        extraction_method := some "browser" } : Page).extraction_method = some "browser" ∧
    restorePage (serializePage
        { mkPage "https://example.edu/r" with
            status := PageStatus.fetched
            extraction_method := some "browser" }) ≠
      some { mkPage "https://example.edu/r" with
               status := PageStatus.fetched
               extraction_method := some "browser" } := by
  refine ⟨by decide, by decide, by decide⟩

/-- C5 amended: saving a checkpoint and loading it back reproduces the
`CrawlJob`, the `PipelineState` (including their enum and datetime fields)
and, for every page in the four lists, every field in the deserializer's
restore list (url, job_id, status, datetimes, HTTP metadata, contents,
links/contact sets, error tracking).  The fields absent from that list —
`extraction_method`, `browser_fetched`, `cleaned_html`,
`crawl4ai_markdown`, `markdown_quality_score`, `analysis_results`,
`analyzed_at` — come back as their dataclass defaults instead of their
saved values. -/
theorem c5_roundtrip_restored_fields (job : CrawlJob) (ps : PipelineState)
    (pend proc compl fail : List Page) (now : ℚ) :
    CheckpointManager.deserialize_checkpoint
        (CheckpointManager.save_checkpoint job ps
          (some pend) (some proc) (some compl) (some fail) now) =
      some { job := job
             pipeline_state := ps
             pending_pages := pend.map clearUnrestored
             processing_pages := proc.map clearUnrestored
             completed_pages := compl.map clearUnrestored
             failed_pages := fail.map clearUnrestored
             checkpoint_time := now } := by
  unfold CheckpointManager.deserialize_checkpoint CheckpointManager.save_checkpoint
  simp [restoreJob_serializeJob, restorePipelineState_serialize, mapM_restore_serialize,
    mapM_loop_restore, fromisoformat_isoformat]

theorem countChallengeMatches_empty : BotDetector.countChallengeMatches "" = 0 := by decide

theorem is_bot_challenge_of_matches (r : HTTPResponse)
    (h : 2 ≤ BotDetector.countChallengeMatches r.text) :
    BotDetector.is_bot_challenge_response r = true := by
  have htext : r.text ≠ "" := by
    intro he
    rw [he, countChallengeMatches_empty] at h
    omega
  unfold BotDetector.is_bot_challenge_response
  simp [htext, h]

/-- C6: when the HTTP path is taken (discovered page, no prior challenge
history, domain not in cooldown, limiter not blocked) and the GET returns a
200 whose body contains at least two challenge phrases, the response body
is never accepted as fetched content: the page handed onward keeps its old
`html_content` and `extraction_method`, is reset to `discovered` with the
reason "Bot challenge detected" recorded, and is dispatched through the
browser path exactly once within this call — no loop. -/
theorem c6_challenge_never_accepted (cfg : FetcherConfig) (st : FetcherState)
    (p : Page) (now : ℚ) (r : HTTPResponse) (response_time : ℚ)
    (bfetch : Page → Option Page)
    (hstatus : p.status = PageStatus.discovered)
    (hbrowser : BotDetector.should_use_browser p = false)
    (hdom : (HTTPFetcher.is_domain_blocked st.blocked_domains (urlNetloc p.url) now).1 = false)
    (hrl : AdaptiveRateLimiter.is_blocked
        (HTTPFetcher.limiterFor cfg st.rate_limiters (urlNetloc p.url)) now = false)
    (hcode : r.status_code = 200)
    (hmatches : 2 ≤ BotDetector.countChallengeMatches r.text) :
    (HTTPFetcher.process_item cfg st p now (NetResult.resp r response_time) bfetch).2.2.browserDispatches = 1 ∧
    (HTTPFetcher.process_item cfg st p now (NetResult.resp r response_time) bfetch).2.2.acceptedHttpContent = false ∧
    (HTTPFetcher.process_item cfg st p now (NetResult.resp r response_time) bfetch).2.2.httpAttempted = true ∧
    ((HTTPFetcher.process_item cfg st p now (NetResult.resp r response_time) bfetch).2.2.dispatchedPage).map
        Page.status = some PageStatus.discovered ∧
    ((HTTPFetcher.process_item cfg st p now (NetResult.resp r response_time) bfetch).2.2.dispatchedPage).map
        Page.error_message = some (some "Bot challenge detected") ∧
    ((HTTPFetcher.process_item cfg st p now (NetResult.resp r response_time) bfetch).2.2.dispatchedPage).map
        Page.html_content = some p.html_content ∧
    ((HTTPFetcher.process_item cfg st p now (NetResult.resp r response_time) bfetch).2.2.dispatchedPage).map
        Page.extraction_method = some p.extraction_method := by
  have hbot : BotDetector.is_bot_challenge_response r = true := is_bot_challenge_of_matches r hmatches
  unfold HTTPFetcher.process_item
  rw [if_neg (by simp [hstatus])]
  rw [hbrowser]
  simp only [Bool.false_eq_true, if_false]
  rw [hdom]
  simp only [Bool.false_eq_true, if_false]
  rw [hrl]
  simp only [Bool.false_eq_true, if_false]
  rw [hcode]
  simp only [if_pos rfl]
  rw [hbot]
  simp only [if_true]
  split <;> simp

/-- Witness for C6: a concrete 200 response whose body contains the phrases
"captcha" and "checking your browser". -/
theorem c6_challenge_never_accepted_witness :
    2 ≤ BotDetector.countChallengeMatches "a captcha puzzle - checking your browser" ∧
    ((HTTPFetcher.process_item {} {} (mkPage "https://example.edu/ch") 0
        (NetResult.resp
          { url := "https://example.edu/ch", status_code := 200,
            text := "a captcha puzzle - checking your browser",
            headers := [], history := [] } 1)
        (fun _ => none)).2.2.browserDispatches = 1 ∧
      (HTTPFetcher.process_item {} {} (mkPage "https://example.edu/ch") 0
        (NetResult.resp
          { url := "https://example.edu/ch", status_code := 200,
            text := "a captcha puzzle - checking your browser",
            headers := [], history := [] } 1)
        (fun _ => none)).2.2.acceptedHttpContent = false ∧
      (HTTPFetcher.process_item {} {} (mkPage "https://example.edu/ch") 0
        (NetResult.resp
          { url := "https://example.edu/ch", status_code := 200,
            text := "a captcha puzzle - checking your browser",
            headers := [], history := [] } 1)
        (fun _ => none)).2.2.httpAttempted = true ∧
      ((HTTPFetcher.process_item {} {} (mkPage "https://example.edu/ch") 0
        (NetResult.resp
          { url := "https://example.edu/ch", status_code := 200,
            text := "a captcha puzzle - checking your browser",
            headers := [], history := [] } 1)
        (fun _ => none)).2.2.dispatchedPage).map Page.status = some PageStatus.discovered ∧
      ((HTTPFetcher.process_item {} {} (mkPage "https://example.edu/ch") 0
        (NetResult.resp
          { url := "https://example.edu/ch", status_code := 200,
            text := "a captcha puzzle - checking your browser",
            headers := [], history := [] } 1)
        (fun _ => none)).2.2.dispatchedPage).map Page.error_message =
          some (some "Bot challenge detected") ∧
      ((HTTPFetcher.process_item {} {} (mkPage "https://example.edu/ch") 0
        (NetResult.resp
          { url := "https://example.edu/ch", status_code := 200,
            text := "a captcha puzzle - checking your browser",
            headers := [], history := [] } 1)
        (fun _ => none)).2.2.dispatchedPage).map Page.html_content =
          some (mkPage "https://example.edu/ch").html_content ∧
      ((HTTPFetcher.process_item {} {} (mkPage "https://example.edu/ch") 0
        (NetResult.resp
          { url := "https://example.edu/ch", status_code := 200,
            text := "a captcha puzzle - checking your browser",
            headers := [], history := [] } 1)
        (fun _ => none)).2.2.dispatchedPage).map Page.extraction_method =
          some (mkPage "https://example.edu/ch").extraction_method) :=
  ⟨by decide,
   c6_challenge_never_accepted {} {} (mkPage "https://example.edu/ch") 0
     { url := "https://example.edu/ch", status_code := 200,
       text := "a captcha puzzle - checking your browser",
       headers := [], history := [] } 1 (fun _ => none)
     (by decide) (by decide) (by decide) (by decide) (by decide) (by decide)⟩

theorem c7_step1 :
    AdaptiveRateLimiter.on_success (AdaptiveRateLimiter.init 1 30) 1 =
      { base_delay := 1, max_delay := 30, current_delay := 1, last_request_time := none,
        consecutive_errors := 0, success_count := 1, response_times := [1],
        rate_limit_violations := 0, last_rate_limit_time := none,
        server_error_count := 0, blocking_indicators := 0 } := by
  unfold AdaptiveRateLimiter.on_success AdaptiveRateLimiter.adjust_delay_from_response_time
    AdaptiveRateLimiter.init AdaptiveRateLimiter.max_response_history
  norm_num

theorem c7_step2 :
    AdaptiveRateLimiter.on_error
      { base_delay := 1, max_delay := 30, current_delay := 1, last_request_time := none,
        consecutive_errors := 0, success_count := 1, response_times := [1],
        rate_limit_violations := 0, last_rate_limit_time := none,
        server_error_count := 0, blocking_indicators := 0 } (some 429) [] 10 =
      { base_delay := 1, max_delay := 30, current_delay := 5 / 2, last_request_time := none,
        consecutive_errors := 1, success_count := 0, response_times := [1],
        rate_limit_violations := 1, last_rate_limit_time := some 10,
        server_error_count := 0, blocking_indicators := 2 } := by
  unfold AdaptiveRateLimiter.on_error AdaptiveRateLimiter.analyze_blocking_indicators
  norm_num [AdaptiveRateLimiter.rate_limit_header_names,
    AdaptiveRateLimiter.protection_header_names, min_def]

theorem c7_step3 :
    AdaptiveRateLimiter.on_error
      { base_delay := 1, max_delay := 30, current_delay := 5 / 2, last_request_time := none,
        consecutive_errors := 1, success_count := 0, response_times := [1],
        rate_limit_violations := 1, last_rate_limit_time := some 10,
        server_error_count := 0, blocking_indicators := 2 } (some 429) [] 20 =
      { base_delay := 1, max_delay := 30, current_delay := 25 / 4, last_request_time := none,
        consecutive_errors := 2, success_count := 0, response_times := [1],
        rate_limit_violations := 2, last_rate_limit_time := some 20,
        server_error_count := 0, blocking_indicators := 4 } := by
  unfold AdaptiveRateLimiter.on_error AdaptiveRateLimiter.analyze_blocking_indicators
  norm_num [AdaptiveRateLimiter.rate_limit_header_names,
    AdaptiveRateLimiter.protection_header_names, min_def]

theorem c7_step4 :
    AdaptiveRateLimiter.on_error
      { base_delay := 1, max_delay := 30, current_delay := 25 / 4, last_request_time := none,
        consecutive_errors := 2, success_count := 0, response_times := [1],
        rate_limit_violations := 2, last_rate_limit_time := some 20,
        server_error_count := 0, blocking_indicators := 4 } (some 429) [] 30 =
      { base_delay := 1, max_delay := 30, current_delay := 125 / 8, last_request_time := none,
        consecutive_errors := 3, success_count := 0, response_times := [1],
        rate_limit_violations := 3, last_rate_limit_time := some 30,
        server_error_count := 0, blocking_indicators := 6 } := by
  unfold AdaptiveRateLimiter.on_error AdaptiveRateLimiter.analyze_blocking_indicators
  norm_num [AdaptiveRateLimiter.rate_limit_header_names,
    AdaptiveRateLimiter.protection_header_names, min_def]

theorem c7AfterCalls_eq :
    c7AfterCalls =
      { base_delay := 1, max_delay := 30, current_delay := 125 / 8, last_request_time := none,
        consecutive_errors := 3, success_count := 0, response_times := [1],
        rate_limit_violations := 3, last_rate_limit_time := some 30,
        server_error_count := 0, blocking_indicators := 6 } := by
  unfold c7AfterCalls runRL
  simp only [List.foldl_cons, List.foldl_nil, RLEvent.apply]
  rw [c7_step1, c7_step2, c7_step3, c7_step4]

/-- C7 counterexample: after `on_success` for the 200 response and three
`on_error(429)` calls from base 1 s / cap 30 s, `current_delay` is
1 × 2.5³ = 15.625 s — strictly below the 30 s cap, so the claim's "clamped
at 30s" (delay at the cap) is false at that point of the scenario. -/
theorem c7_counterexample_delay_below_cap :
    c7AfterCalls.current_delay = 125 / 8 ∧
    c7AfterCalls.current_delay < 30 ∧
    c7AfterCalls.current_delay ≠ 30 := by
  rw [c7AfterCalls_eq]
  norm_num

/-- C7 amended: after [200, 429, 429, 429] on `example.edu` with base 1 s
and cap 30 s, severity is "blocked" (`rate_limit_violations = 3 > 2`), the
delay was multiplied by 2.5 three times to 15.625 s — still within, not at,
the 30 s cap — and the 5th fetch attempt short-circuits without a network
call: the `is_blocked` check fails the page with "Domain blocked - applying
cooldown" and enters the 1-hour domain cooldown (recorded at t = 40 s).
The delay reaches the 30 s cap only through that attempt's
blocked-degradation step, which triples 15.625 s and clamps. -/
theorem c7_scenario_amended :
    AdaptiveRateLimiter.get_blocking_severity c7AfterCalls 30 = "blocked" ∧
    c7AfterCalls.rate_limit_violations = 3 ∧
    c7AfterCalls.current_delay = 1 * (5 / 2) * (5 / 2) * (5 / 2) ∧
    c7AfterCalls.current_delay ≤ 30 ∧
    c7FifthAttempt.2.2 = noEffects ∧
    c7FifthAttempt.1.status = PageStatus.failed ∧
    c7FifthAttempt.1.error_message = some "Domain blocked - applying cooldown" ∧
    c7FifthAttempt.2.1.blocked_domains.lookup "example.edu" = some 40 ∧
    c7FifthAttempt.2.1.rate_limiters.map Prod.fst = ["example.edu"] ∧
    ((c7FifthAttempt.2.1.rate_limiters.lookup "example.edu").map
        RateLimiterState.consecutive_errors = some 0) ∧
    (HTTPFetcher.apply_degradation_strategy c7StateAfter "example.edu" c7AfterCalls
        "blocked" 40).2.current_delay = 30 := by
  refine ⟨by decide, by decide, ?_, ?_, by decide, by decide, by decide, by decide,
    by decide, by decide, ?_⟩
  · rw [c7AfterCalls_eq]
    norm_num
  · rw [c7AfterCalls_eq]
    norm_num
  · unfold HTTPFetcher.apply_degradation_strategy
    rw [if_pos rfl]
    rw [c7AfterCalls_eq]
    norm_num [min_def]

/-- The C4 invariant: the configured band is unchanged and the current
delay lies within it. -/
def DelayInv (base cap : ℚ) (s : RateLimiterState) : Prop :=
  s.base_delay = base ∧ s.max_delay = cap ∧ base ≤ s.current_delay ∧ s.current_delay ≤ cap

theorem delay_up_lower {base cap d c : ℚ} (hb : 0 ≤ base) (h1 : base ≤ d) (h2 : d ≤ cap)
    (hc : 1 ≤ c) : base ≤ min cap (d * c) :=
  le_min (h1.trans h2) (h1.trans (le_mul_of_one_le_right (hb.trans h1) hc))

theorem delay_down_upper {base cap d c : ℚ} (hb : 0 ≤ base) (h1 : base ≤ d) (h2 : d ≤ cap)
    (hc : c ≤ 1) : max base (d * c) ≤ cap :=
  max_le (h1.trans h2) ((mul_le_of_le_one_right (hb.trans h1) hc).trans h2)

theorem foldl_keeps {α : Type} (f : RateLimiterState → α → RateLimiterState)
    (h : ∀ s a, ((f s a).base_delay, (f s a).max_delay, (f s a).current_delay) =
      (s.base_delay, s.max_delay, s.current_delay)) :
    ∀ (l : List α) (s : RateLimiterState),
      ((l.foldl f s).base_delay, (l.foldl f s).max_delay, (l.foldl f s).current_delay) =
        (s.base_delay, s.max_delay, s.current_delay)
  | [], _ => rfl
  | a :: t, s => by rw [List.foldl_cons, foldl_keeps f h t (f s a), h]

theorem analyze_proj (s : RateLimiterState) (code : Option ℤ)
    (headers : List (String × String)) :
    ((AdaptiveRateLimiter.analyze_blocking_indicators s code headers).base_delay,
     (AdaptiveRateLimiter.analyze_blocking_indicators s code headers).max_delay,
     (AdaptiveRateLimiter.analyze_blocking_indicators s code headers).current_delay) =
      (s.base_delay, s.max_delay, s.current_delay) := by
  unfold AdaptiveRateLimiter.analyze_blocking_indicators
  rw [foldl_keeps]
  · split
    · rw [foldl_keeps]
      intro s a
      dsimp only
      split
      · split
        · split <;> rfl
        · rfl
      · rfl
    · rw [foldl_keeps]
      intro s a
      dsimp only
      split
      · split
        · split <;> rfl
        · rfl
      · rfl
  · intro s a
    dsimp only
    split
    · split <;> rfl
    · rfl

theorem adjust_inv {base cap : ℚ} (hb : 0 ≤ base) (s : RateLimiterState) (rt : ℚ)
    (h : DelayInv base cap s) :
    DelayInv base cap (AdaptiveRateLimiter.adjust_delay_from_response_time s rt) := by
  obtain ⟨h1, h2, h3, h4⟩ := h
  unfold AdaptiveRateLimiter.adjust_delay_from_response_time
  dsimp only
  repeat' split
  all_goals first
    | exact ⟨h1, h2, h3, h4⟩
    | exact ⟨h1, h2, by rw [h1]; exact le_max_left _ _,
        by rw [h1]; exact delay_down_upper hb h3 h4 (by norm_num)⟩
    | exact ⟨h1, h2, by rw [h2]; exact delay_up_lower hb h3 h4 (by norm_num),
        by rw [h2]; exact min_le_left _ _⟩

theorem on_success_inv {base cap : ℚ} (hb : 0 ≤ base) (s : RateLimiterState) (rt : ℚ)
    (h : DelayInv base cap s) :
    DelayInv base cap (AdaptiveRateLimiter.on_success s rt) := by
  obtain ⟨h1, h2, h3, h4⟩ := h
  have key : ∀ s' : RateLimiterState, DelayInv base cap s' →
      DelayInv base cap
        (if 10 < s'.success_count ∧ s'.base_delay < s'.current_delay then
          { s' with
              current_delay := max s'.base_delay (s'.current_delay * (9 / 10))
              success_count := 0 }
        else s') := by
    intro s' hs'
    split
    · refine ⟨hs'.1, hs'.2.1, ?_, ?_⟩
      · rw [hs'.1]
        exact le_max_left _ _
      · rw [hs'.1]
        exact delay_down_upper hb hs'.2.2.1 hs'.2.2.2 (by norm_num)
    · exact hs'
  unfold AdaptiveRateLimiter.on_success
  dsimp only
  apply key
  apply adjust_inv hb _ rt
  split
  · exact ⟨h1, h2, h3, h4⟩
  · exact ⟨h1, h2, h3, h4⟩

theorem on_error_inv {base cap : ℚ} (hb : 0 ≤ base) (s : RateLimiterState)
    (code : Option ℤ) (headers : List (String × String)) (now : ℚ)
    (h : DelayInv base cap s) :
    DelayInv base cap (AdaptiveRateLimiter.on_error s code headers now) := by
  obtain ⟨h1, h2, h3, h4⟩ := h
  unfold AdaptiveRateLimiter.on_error
  dsimp only
  set t := AdaptiveRateLimiter.analyze_blocking_indicators
    { s with consecutive_errors := s.consecutive_errors + 1, success_count := 0 }
    code headers with ht
  have ha := analyze_proj
    { s with consecutive_errors := s.consecutive_errors + 1, success_count := 0 } code headers
  rw [← ht] at ha
  have e1 : t.base_delay = base := by
    have hfst := congrArg Prod.fst ha
    simpa using hfst.trans h1
  have e2 : t.max_delay = cap := by
    have hm := congrArg (fun x : ℚ × ℚ × ℚ => x.2.1) ha
    simpa using hm.trans h2
  have ecur : t.current_delay = s.current_delay := by
    have hc := congrArg (fun x : ℚ × ℚ × ℚ => x.2.2) ha
    simpa using hc
  have l1 : base ≤ t.current_delay := ecur ▸ h3
  have l2 : t.current_delay ≤ cap := ecur ▸ h4
  have upP : ∀ c : ℚ, 1 ≤ c →
      base ≤ min t.max_delay (t.current_delay * c) ∧
        min t.max_delay (t.current_delay * c) ≤ cap := by
    intro c hc
    constructor
    · rw [e2]
      exact delay_up_lower hb l1 l2 hc
    · rw [e2]
      exact min_le_left _ _
  rcases code with _ | c
  · exact ⟨e1, e2, (upP (6 / 5) (by norm_num)).1, (upP (6 / 5) (by norm_num)).2⟩
  · dsimp only
    by_cases hc1 : c = 429
    · rw [if_pos hc1]
      exact ⟨e1, e2, (upP (5 / 2) (by norm_num)).1, (upP (5 / 2) (by norm_num)).2⟩
    · rw [if_neg hc1]
      by_cases hc2 : c = 403
      · rw [if_pos hc2]
        exact ⟨e1, e2, (upP 2 (by norm_num)).1, (upP 2 (by norm_num)).2⟩
      · rw [if_neg hc2]
        by_cases hc3 : c ≠ 0 ∧ 500 ≤ c
        · rw [if_pos hc3]
          split
          · exact ⟨e1, e2, (upP (3 / 2) (by norm_num)).1, (upP (3 / 2) (by norm_num)).2⟩
          · exact ⟨e1, e2, (upP (3 / 2) (by norm_num)).1, (upP (3 / 2) (by norm_num)).2⟩
        · rw [if_neg hc3]
          by_cases hc4 : c = 404
          · rw [if_pos hc4]
            exact ⟨e1, e2, (upP (11 / 10) (by norm_num)).1, (upP (11 / 10) (by norm_num)).2⟩
          · rw [if_neg hc4]
            exact ⟨e1, e2, (upP (6 / 5) (by norm_num)).1, (upP (6 / 5) (by norm_num)).2⟩

theorem runRL_inv {base cap : ℚ} (hb : 0 ≤ base) :
    ∀ (events : List RLEvent) (s : RateLimiterState),
      DelayInv base cap s → DelayInv base cap (runRL s events) := by
  intro events
  induction events with
  | nil => exact fun s h => h
  | cons e t ih =>
      intro s h
      rw [show runRL s (e :: t) = runRL (RLEvent.apply s e) t from rfl]
      apply ih
      cases e with
      | succ rt => exact on_success_inv hb _ _ h
      | err code headers now => exact on_error_inv hb _ code headers now h

/-- C4: for every rate-limiter instance constructed with a nonnegative
`base_delay ≤ max_delay` and every finite sequence of `on_error` /
`on_success` calls, `base_delay ≤ current_delay ≤ max_delay` holds after
the sequence (hence after every call, since every prefix is also a
sequence). -/
theorem c4_delay_bounds (base cap : ℚ) (events : List RLEvent)
    (hb : 0 ≤ base) (hbm : base ≤ cap) :
    base ≤ (runRL (AdaptiveRateLimiter.init base cap) events).current_delay ∧
    (runRL (AdaptiveRateLimiter.init base cap) events).current_delay ≤ cap := by
  have h := runRL_inv hb events (AdaptiveRateLimiter.init base cap)
    ⟨rfl, rfl, le_refl base, hbm⟩
  exact ⟨h.2.2.1, h.2.2.2⟩

/-- Witness for C4 at base 1 s, cap 30 s, with a 503-with-Retry-After error
followed by a success. -/
theorem c4_delay_bounds_witness :
    (0 : ℚ) ≤ 1 ∧ (1 : ℚ) ≤ 30 ∧
    (1 ≤ (runRL (AdaptiveRateLimiter.init 1 30)
        [RLEvent.err (some 503) [("retry-after", "5")] 0, RLEvent.succ 2]).current_delay ∧
     (runRL (AdaptiveRateLimiter.init 1 30)
        [RLEvent.err (some 503) [("retry-after", "5")] 0, RLEvent.succ 2]).current_delay ≤ 30) :=
  ⟨by norm_num, by norm_num,
   c4_delay_bounds 1 30 [RLEvent.err (some 503) [("retry-after", "5")] 0, RLEvent.succ 2]
     (by norm_num) (by norm_num)⟩

theorem totalLen_eq_length (s : QState) : totalLen s = (allUrls s).length := by
  simp [totalLen, allUrls]
  omega

theorem map_url_filter (q : String → Bool) (l : List Page) :
    (l.filter (fun p => q p.url)).map Page.url = (l.map Page.url).filter q := by
  induction l with
  | nil => rfl
  | cons a t ih => by_cases h : q a.url <;> simp [List.filter_cons, h, ih]

theorem mark_urls_eq (pr ps : List Page)
    (hprn : (pr.map Page.url).Nodup)
    (hpsn : (ps.map Page.url).Nodup)
    (hsub : ∀ u ∈ ps.map Page.url, u ∈ pr.map Page.url) :
    (((pr.filter (fun p => decide (p.url ∉ ps.map Page.url))).map Page.url : List String) :
        Multiset String) + ((ps.map Page.url : List String) : Multiset String) =
      ((pr.map Page.url : List String) : Multiset String) := by
  rw [map_url_filter (fun u => decide (u ∉ ps.map Page.url)) pr]
  have hq : (fun u : String => decide (u ∉ ps.map Page.url)) =
      (fun u : String => !(decide (u ∈ ps.map Page.url))) := by
    funext u
    rw [decide_not]
  rw [hq]
  have hperm := List.filter_append_perm
    (fun u : String => decide (u ∈ ps.map Page.url)) (pr.map Page.url)
  have hf : (((pr.map Page.url).filter (fun u => decide (u ∈ ps.map Page.url)) :
        List String) : Multiset String) = ((ps.map Page.url : List String) : Multiset String) := by
    rw [Multiset.Nodup.ext (Multiset.coe_nodup.2 (hprn.filter _)) (Multiset.coe_nodup.2 hpsn)]
    intro a
    simp only [Multiset.mem_coe, List.mem_filter, decide_eq_true_eq]
    exact ⟨fun h => h.2, fun h => ⟨hsub a h, h⟩⟩
  rw [add_comm, ← hf, Multiset.coe_add]
  exact Multiset.coe_eq_coe.2 hperm

theorem step_add_urls (s : QState) (ps : List Page) :
    ((allUrls (URLQueue.add_pending s ps) : List String) : Multiset String) =
      (allUrls s : Multiset String) + ↑(ps.map Page.url) := by
  simp only [allUrls, URLQueue.add_pending, List.map_append, ← Multiset.coe_add]
  abel

theorem step_deq_urls (s : QState) (n : ℕ) :
    ((allUrls (URLQueue.get_pending_batch s n).2 : List String) : Multiset String) =
      (allUrls s : Multiset String) := by
  unfold URLQueue.get_pending_batch
  split
  · rfl
  · have h : ((s.pending.map Page.url : List String) : Multiset String) =
        ↑((s.pending.take n).map Page.url) + ↑((s.pending.drop n).map Page.url) := by
      rw [Multiset.coe_add, ← List.map_append, List.take_append_drop]
    simp only [allUrls, List.map_append, ← Multiset.coe_add]
    rw [h]
    abel

theorem step_markC_urls (s : QState) (ps : List Page)
    (hprn : (s.processing.map Page.url).Nodup)
    (hpsn : (ps.map Page.url).Nodup)
    (hsub : ∀ u ∈ ps.map Page.url, u ∈ s.processing.map Page.url) :
    ((allUrls (URLQueue.mark_completed s ps) : List String) : Multiset String) =
      (allUrls s : Multiset String) := by
  have key := mark_urls_eq s.processing ps hprn hpsn hsub
  simp only [allUrls, URLQueue.mark_completed, List.map_append, ← Multiset.coe_add]
  rw [← key]
  abel

theorem step_markF_urls (s : QState) (ps : List Page)
    (hprn : (s.processing.map Page.url).Nodup)
    (hpsn : (ps.map Page.url).Nodup)
    (hsub : ∀ u ∈ ps.map Page.url, u ∈ s.processing.map Page.url) :
    ((allUrls (URLQueue.mark_failed s ps) : List String) : Multiset String) =
      (allUrls s : Multiset String) := by
  have key := mark_urls_eq s.processing ps hprn hpsn hsub
  simp only [allUrls, URLQueue.mark_failed, List.map_append, ← Multiset.coe_add]
  rw [← key]
  abel

theorem processing_nodup_of_allUrls (s : QState) (hn : (allUrls s).Nodup) :
    (s.processing.map Page.url).Nodup := by
  have h0 : allUrls s =
      ((s.pending.map Page.url ++ s.processing.map Page.url) ++ s.completed.map Page.url) ++
        s.failed.map Page.url := by
    simp only [allUrls, List.map_append]
  rw [h0] at hn
  exact ((List.nodup_append.1 ((List.nodup_append.1 (List.nodup_append.1 hn).1).1)).2).1

theorem nodup_of_step {s s' : QState} {new : List String}
    (heq : ((allUrls s' : List String) : Multiset String) =
      (allUrls s : Multiset String) + ↑new)
    (hn : (allUrls s).Nodup) (hnew : new.Nodup)
    (hdisj : ∀ u ∈ new, u ∉ allUrls s) :
    (allUrls s').Nodup := by
  have hperm : List.Perm (allUrls s') (allUrls s ++ new) := by
    rw [← Multiset.coe_eq_coe, heq, Multiset.coe_add]
  exact hperm.nodup_iff.2
    (List.nodup_append.2 ⟨hn, hnew, fun a ha hb => hdisj a hb ha⟩)

theorem run_urls (ops : List QOp) : ∀ s : QState, wfOps s ops → (allUrls s).Nodup →
    ((allUrls (runFrom s ops) : List String) : Multiset String) =
      (allUrls s : Multiset String) + ↑(enqueuedUrls ops) ∧
    (allUrls (runFrom s ops)).Nodup := by
  induction ops with
  | nil =>
      intro s _ hn
      refine ⟨?_, hn⟩
      simp [runFrom, enqueuedUrls]
  | cons op rest ih =>
      intro s hwf hn
      obtain ⟨hop, hrest⟩ := hwf
      have hrun : runFrom s (op :: rest) = runFrom (QOp.apply s op) rest := rfl
      cases op with
      | add ps =>
          obtain ⟨hn1, hdisj⟩ := hop
          have hstep := step_add_urls s ps
          have hn' := nodup_of_step hstep hn hn1 hdisj
          obtain ⟨ih1, ih2⟩ := ih (QOp.apply s (QOp.add ps)) hrest hn'
          refine ⟨?_, by rw [hrun]; exact ih2⟩
          rw [hrun, ih1]
          simp only [QOp.apply, enqueuedUrls]
          rw [hstep, ← Multiset.coe_add]
          abel
      | deq n =>
          have hstep := step_deq_urls s n
          have hn' : (allUrls (QOp.apply s (QOp.deq n))).Nodup := by
            have hperm : List.Perm (allUrls (QOp.apply s (QOp.deq n))) (allUrls s) := by
              rw [← Multiset.coe_eq_coe]
              exact hstep
            exact hperm.nodup_iff.2 hn
          obtain ⟨ih1, ih2⟩ := ih (QOp.apply s (QOp.deq n)) hrest hn'
          refine ⟨?_, by rw [hrun]; exact ih2⟩
          rw [hrun, ih1]
          simp only [QOp.apply, enqueuedUrls]
          rw [hstep]
      | markC ps =>
          obtain ⟨hn1, hsub⟩ := hop
          have hstep := step_markC_urls s ps (processing_nodup_of_allUrls s hn) hn1 hsub
          have hn' : (allUrls (QOp.apply s (QOp.markC ps))).Nodup := by
            have hperm : List.Perm (allUrls (QOp.apply s (QOp.markC ps))) (allUrls s) := by
              rw [← Multiset.coe_eq_coe]
              exact hstep
            exact hperm.nodup_iff.2 hn
          obtain ⟨ih1, ih2⟩ := ih (QOp.apply s (QOp.markC ps)) hrest hn'
          refine ⟨?_, by rw [hrun]; exact ih2⟩
          rw [hrun, ih1]
          simp only [QOp.apply, enqueuedUrls]
          rw [hstep]
      | markF ps =>
          obtain ⟨hn1, hsub⟩ := hop
          have hstep := step_markF_urls s ps (processing_nodup_of_allUrls s hn) hn1 hsub
          have hn' : (allUrls (QOp.apply s (QOp.markF ps))).Nodup := by
            have hperm : List.Perm (allUrls (QOp.apply s (QOp.markF ps))) (allUrls s) := by
              rw [← Multiset.coe_eq_coe]
              exact hstep
            exact hperm.nodup_iff.2 hn
          obtain ⟨ih1, ih2⟩ := ih (QOp.apply s (QOp.markF ps)) hrest hn'
          refine ⟨?_, by rw [hrun]; exact ih2⟩
          rw [hrun, ih1]
          simp only [QOp.apply, enqueuedUrls]
          rw [hstep]

theorem allUrls_qempty : allUrls qempty = [] := rfl

theorem totalLen_runOps (ops : List QOp) (h : wfOps qempty ops) :
    totalLen (runOps ops) = (enqueuedUrls ops).length ∧ (enqueuedUrls ops).Nodup := by
  obtain ⟨heq, hnd⟩ := run_urls ops qempty h (by rw [allUrls_qempty]; exact List.nodup_nil)
  rw [allUrls_qempty] at heq
  have heq2 : ((allUrls (runOps ops) : List String) : Multiset String) =
      ↑(enqueuedUrls ops) := by
    show ((allUrls (runFrom qempty ops) : List String) : Multiset String) = _
    rw [heq]
    simp
  have hperm : List.Perm (allUrls (runOps ops)) (enqueuedUrls ops) :=
    Multiset.coe_eq_coe.1 heq2
  constructor
  · rw [totalLen_eq_length, hperm.length_eq]
  · exact hperm.nodup_iff.1 hnd

theorem enqueuedUrls_append (a b : List QOp) :
    enqueuedUrls (a ++ b) = enqueuedUrls a ++ enqueuedUrls b := by
  induction a with
  | nil => rfl
  | cons op t ih =>
      cases op with
      | add ps => simp [enqueuedUrls, ih]
      | deq n => simp [enqueuedUrls, ih]
      | markC ps => simp [enqueuedUrls, ih]
      | markF ps => simp [enqueuedUrls, ih]

theorem wfOps_of_append (a : List QOp) :
    ∀ (s : QState) (b : List QOp), wfOps s (a ++ b) → wfOps s a := by
  induction a with
  | nil => exact fun _ _ _ => trivial
  | cons op t ih =>
      intro s b h
      obtain ⟨hop, hrest⟩ := h
      exact ⟨hop, ih (QOp.apply s op) b hrest⟩

/-- C3 counterexample: enqueueing the same URL twice via `add_pending`
(which never deduplicates) gives four-queue total 2 while only one
distinct URL was ever enqueued, so the claim fails for arbitrary
operation sequences. -/
theorem c3_counterexample_duplicate_enqueue :
    totalLen (runOps [QOp.add [pageA], QOp.add [pageA]]) = 2 ∧
    distinctEnqueued [QOp.add [pageA], QOp.add [pageA]] = 1 ∧
    totalLen (runOps [QOp.add [pageA], QOp.add [pageA]]) ≠
      distinctEnqueued [QOp.add [pageA], QOp.add [pageA]] := by
  refine ⟨by decide, by decide, by decide⟩

/-- C3 amended: for sequences of add_pending / get_pending_batch /
mark_completed / mark_failed from the empty frontier in which every
enqueue adds pairwise-distinct never-seen URLs and every mark call names
pairwise-distinct URLs currently in processing, the sum of the four queue
sizes equals the number of distinct URLs ever enqueued, and that total is
non-decreasing along the sequence. -/
theorem c3_conservation_wf (ops : List QOp) (h : wfOps qempty ops) :
    totalLen (runOps ops) = distinctEnqueued ops ∧
    ∀ pre suf, ops = pre ++ suf → totalLen (runOps pre) ≤ totalLen (runOps ops) := by
  obtain ⟨hlen, hnd⟩ := totalLen_runOps ops h
  constructor
  · rw [hlen, distinctEnqueued, List.dedup_eq_self.2 hnd]
  · intro pre suf hsplit
    subst hsplit
    have hpre := wfOps_of_append pre qempty suf h
    obtain ⟨hlenp, _⟩ := totalLen_runOps pre hpre
    rw [hlen, hlenp, enqueuedUrls_append, List.length_append]
    omega

/-- Witness for C3's amended theorem: enqueue A and B, dequeue a batch of
one, mark it completed; the totals balance at 2. -/
theorem c3_conservation_wf_witness :
    wfOps qempty [QOp.add [pageA, pageB], QOp.deq 1, QOp.markC [pageA]] ∧
    totalLen (runOps [QOp.add [pageA, pageB], QOp.deq 1, QOp.markC [pageA]]) =
      distinctEnqueued [QOp.add [pageA, pageB], QOp.deq 1, QOp.markC [pageA]] :=
  ⟨⟨⟨by decide, by decide⟩, trivial, ⟨by decide, by decide⟩, trivial⟩,
   (c3_conservation_wf [QOp.add [pageA, pageB], QOp.deq 1, QOp.markC [pageA]]
     ⟨⟨by decide, by decide⟩, trivial, ⟨by decide, by decide⟩, trivial⟩).1⟩
